import Mathlib

/-!
Shallow embedding of `starter.go` (package `starter`, a hot-restart process
supervisor) and proofs about its behaviour.

Conventions of the embedding:
- `syscall.Signal` values are the inductive `SysSignal` (one constructor per
  signal named in the source's tables); `os.Signal` is `Option SysSignal`
  (`none` models a nil interface value).
- Go maps appear as association lists with Go's lookup semantics.
- Machine integers are `Int` with explicit two's-complement wrapping where the
  Go arithmetic can overflow (`time.Duration` multiplication).
- Code that can panic or block forever returns `Option`.
-/

/-- The signals that appear in the source's `niceSigNames` table. -/
inductive SysSignal where
  | SIGABRT | SIGALRM | SIGBUS | SIGCHLD | SIGCONT | SIGEMT | SIGFPE
  | SIGHUP | SIGILL | SIGINFO | SIGINT | SIGIO | SIGKILL | SIGPIPE
  | SIGPROF | SIGQUIT | SIGSEGV | SIGSTOP | SIGSYS | SIGTERM | SIGTRAP
  | SIGTSTP | SIGTTIN | SIGTTOU | SIGURG | SIGUSR1 | SIGUSR2
  | SIGVTALRM | SIGWINCH | SIGXCPU | SIGXFSZ
  deriving DecidableEq, BEq, Repr

/-- The `niceSigNames` map populated by `init` (starter.go lines 19-52).
Note the source maps `syscall.SIGXFSZ` to the string `"GXFSZ"` (sic). -/
def niceSigNamesList : List (SysSignal × String) :=
  [ (.SIGABRT, "ABRT"), (.SIGALRM, "ALRM"), (.SIGBUS, "BUS"),
    (.SIGCHLD, "CHLD"), (.SIGCONT, "CONT"), (.SIGEMT, "EMT"),
    (.SIGFPE, "FPE"), (.SIGHUP, "HUP"), (.SIGILL, "ILL"),
    (.SIGINFO, "INFO"), (.SIGINT, "INT"), ( SysSignal.SIGIO, "IO"),
    (.SIGKILL, "KILL"), (.SIGPIPE, "PIPE"), (.SIGPROF, "PROF"),
    (.SIGQUIT, "QUIT"), (.SIGSEGV, "SEGV"), (.SIGSTOP, "STOP"),
    (.SIGSYS, "SYS"), (.SIGTERM, "TERM"), (.SIGTRAP, "TRAP"),
    (.SIGTSTP, "TSTP"), (.SIGTTIN, "TTIN"), (.SIGTTOU, "TTOU"),
    (.SIGURG, "URG"), (.SIGUSR1, "USR1"), (.SIGUSR2, "USR2"),
    (.SIGVTALRM, "VTALRM"), (.SIGWINCH, "WINCH"), (.SIGXCPU, "XCPU"),
    (.SIGXFSZ, "GXFSZ") ]

/-- Go map read `niceSigNames[ss]`: the zero value `""` when the key is
absent. -/
def niceSigNames (s : SysSignal) : String :=
  (niceSigNamesList.lookup s).getD ""

/-- The package-level `niceNameToSigs` map. `init` (line 54) writes
`niceNameToSigs := make(...)` with `:=`, which declares a fresh local
variable shadowing this package-level one; the package-level map is never
assigned and remains the nil (empty) map. -/
def niceNameToSigs : List (String × SysSignal) := []

/-- The local `niceNameToSigs` built inside `init` (lines 54-57) and then
discarded when `init` returns: the inverse pairs of `niceSigNames`. -/
def initLocalNiceNameToSigs : List (String × SysSignal) :=
  niceSigNamesList.map (fun p => (p.2, p.1))

/-- `signame` (lines 168-173): a `syscall.Signal` is looked up in
`niceSigNames`; any other (or nil) `os.Signal` yields `"UNKNOWN"`. -/
def signame (s : Option SysSignal) : String :=
  match s with
  | some ss => niceSigNames ss
  | none => "UNKNOWN"

/-- `SigFromName` (lines 175-180): looks the name up in the package-level
`niceNameToSigs` map and returns nil (`none`) when it is absent. -/
def SigFromName (n : String) : Option SysSignal :=
  niceNameToSigs.lookup n

/-! ## Go standard-library primitives used by the source -/

/-- `strconv.ParseInt(s, 10, 64)` (also bitSize 0 on a 64-bit platform).
Returns the Go pair (value, ok): on a syntax error the value is 0 and ok is
false; on a range error the value is clamped to the int64 bounds and ok is
false. The callers in the source ignore the error in `getKillOldDelay`
(using the value) and branch on it in `Run`'s port loop. -/
def goParseInt64 (s : String) : Int × Bool :=
  let cs := s.data
  let signed : Bool × List Char :=
    match cs with
    | '+' :: rest => (false, rest)
    | '-' :: rest => (true, rest)
    | _ => (false, cs)
  let neg := signed.1
  let ds := signed.2
  if ds.isEmpty || !(ds.all Char.isDigit) then (0, false)
  else
    let n : Nat := ds.foldl (fun acc c => acc * 10 + (c.toNat - 48)) 0
    let v : Int := if neg then -(n : Int) else (n : Int)
    if v < -(2 ^ 63) then (-(2 ^ 63), false)
    else if (2 ^ 63 - 1 : Int) < v then (2 ^ 63 - 1, false)
    else (v, true)

/-- `strconv.ParseBool`: accepts exactly these twelve strings; any other
input is an error, whose ignored value is the zero value `false`. -/
def goParseBool (s : String) : Bool × Bool :=
  if s = "1" || s = "t" || s = "T" || s = "TRUE" || s = "true" || s = "True" then
    (true, true)
  else if s = "0" || s = "f" || s = "F" || s = "FALSE" || s = "false" || s = "False" then
    (false, true)
  else (false, false)

/-- Two's-complement wrapping to int64, used where Go's `int64` arithmetic
(`time.Duration` multiplication) can overflow. -/
def wrap64 (n : Int) : Int :=
  ((n + 2 ^ 63) % 2 ^ 64) - 2 ^ 63

/-- `time.Second` in nanoseconds (`time.Duration` is an int64 count of
nanoseconds). -/
def goSecond : Int := 1000000000

/-- `getKillOldDelay` (lines 367-376): parse `KILL_OLD_DELAY` and
`ENABLE_AUTO_RESTART` ignoring errors; if auto-restart is set and the parsed
delay is 0, use 5; return `time.Duration(delay) * time.Second`. The two
arguments are the values of the two environment variables (an unset
variable reads as `""`). -/
def getKillOldDelay (killOldDelay enableAutoRestart : String) : Int :=
  let delay := (goParseInt64 killOldDelay).1
  let autoRestart := (goParseBool enableAutoRestart).1
  let delay := if autoRestart && delay == 0 then 5 else delay
  wrap64 (delay * goSecond)

/-! ## Configuration, `NewStarter`, `Close`, `Teardown` -/

/-- The `Config` interface (lines 60-71): an immutable record of accessor
results. `signalOnHUP`/`signalOnTERM` are `os.Signal` values, which may be
nil. `interval` is a `time.Duration` (int64 nanoseconds). -/
structure Config where
  args : List String
  command : String
  dir : String
  interval : Int
  pidFile : String
  ports : List String
  paths : List String
  signalOnHUP : Option SysSignal
  signalOnTERM : Option SysSignal
  statusFile : String
  deriving Repr, DecidableEq

/-- What a listener is bound to. `wildcard p` is `net.Listen("tcp4", ":p")`
(all interfaces); `given a` is `net.Listen("tcp4", a)` with the literal
address string. -/
inductive ListenAddr where
  | wildcard (port : Int)
  | given (addr : String)
  deriving Repr, DecidableEq

/-- The `Starter` struct (lines 73-87). `listeners` slots hold `none` for a
Go nil `net.Listener`. -/
structure Starter where
  interval : Int
  signalOnHUP : Option SysSignal
  signalOnTERM : Option SysSignal
  statusFile : String
  pidFile : String
  dir : String
  ports : List String
  paths : List String
  listeners : List (Option ListenAddr)
  generation : Int
  command : String
  args : List String
  deriving Repr, DecidableEq

/-- `NewStarter` (lines 91-123). The argument is `Option Config` because the
Go parameter is an interface that may be nil; errors are the `Except.error`
strings of the two `fmt.Errorf` calls. -/
def NewStarter (c : Option Config) : Except String Starter :=
  match c with
  | none => .error "config argument must be non-nil"
  | some c =>
    let signalOnHUP : Option SysSignal :=
      match c.signalOnHUP with
      | some s => some s
      | none => some .SIGTERM
    let signalOnTERM : Option SysSignal :=
      match c.signalOnTERM with
      | some s => some s
      | none => some .SIGTERM
    if c.command = "" then .error "argument Command must be specified"
    else
      .ok { args := c.args
            command := c.command
            dir := c.dir
            interval := c.interval
            listeners := List.replicate (c.ports.length + c.paths.length) none
            pidFile := c.pidFile
            ports := c.ports
            paths := c.paths
            signalOnHUP := signalOnHUP
            signalOnTERM := signalOnTERM
            statusFile := c.statusFile
            generation := 0 }

/-- The files removed by `Close` (lines 125-133): the status file if
configured, then the pid file if configured. -/
def closeRemovedFiles (s : Starter) : List String :=
  (if s.statusFile ≠ "" then [s.statusFile] else []) ++
  (if s.pidFile ≠ "" then [s.pidFile] else [])

/-- The files removed by `Teardown` (lines 492-495): only the pid file, when
configured. `Teardown` does not touch the status file. -/
def teardownRemovedFiles (s : Starter) : List String :=
  if s.pidFile ≠ "" then [s.pidFile] else []

/-- The listeners closed by `Teardown` (lines 497-502): every non-nil entry
of `s.listeners`; nil entries are skipped with `continue`. -/
def teardownClosedListeners (s : Starter) : List ListenAddr :=
  s.listeners.filterMap id

/-- `Teardown`'s return value (line 504): always nil. -/
def teardownResult (s : Starter) : Option String := none

/-! ## The listener-opening loop of `Run` (lines 211-226) -/

/-- Which address one port specifier is bound to (lines 213-224):
`strconv.ParseInt(addr, 10, 64)` succeeding means "looks like port only" and
binds `":port"` on tcp4 (the wildcard address); otherwise the specifier
string itself is passed to `net.Listen`. -/
def listenTarget (addr : String) : ListenAddr :=
  let parsed := goParseInt64 addr
  if parsed.2 then .wildcard parsed.1 else .given addr

/-- The `listeners` array of a `Starter` after `Run`'s opening loop: the
array was allocated with `ports.length + paths.length` slots by `NewStarter`
and the loop `for i, addr := range s.ports` fills only the first
`ports.length` slots; the slots for path specifiers remain nil. (Binding is
modelled as succeeding; a bind error would abort `Run`.) -/
def runOpenListeners (ports paths : List String) : List (Option ListenAddr) :=
  ports.map (fun addr => some (listenTarget addr)) ++
  List.replicate paths.length none

/-! ## `StartWorker` (lines 390-490) -/

/-- The two environment variables published by the supervisor for the next
spawned process (lines 421-422 and 229). -/
structure EnvState where
  generation : String
  port : String
  deriving Repr, DecidableEq

/-- The `spec=fd` strings built by the loop over `s.listeners`
(lines 404-417). Slot `i` duplicates listener `i` via the type assertion
`l.(*net.TCPListener)` — which panics (`none`) when the slot holds a Go nil
listener — and then writes `fmt.Sprintf("%s=%d", s.ports[i], i+3)` into the
`ports` slice, which was allocated with only `len(s.ports)` slots, so an
index `i ≥ len(s.ports)` panics too (`none`). -/
def buildPortPairsAux (specs : List String) : Nat → List (Option ListenAddr) → Option (List String)
  | _, [] => some []
  | _, none :: _ => none
  | i, some _ :: rest =>
    match specs.get? i with
    | none => none
    | some spec =>
      (buildPortPairsAux specs (i + 1) rest).map
        (fun tail => (spec ++ "=" ++ toString (i + 3)) :: tail)

def buildPortPairs (specs : List String) (listeners : List (Option ListenAddr)) :
    Option (List String) :=
  buildPortPairsAux specs 0 listeners

/-- Scenario data for one iteration of `StartWorker`'s retry loop: whether
`cmd.Start()` fails, the pid of the process when it starts, whether that
process dies within the liveness interval, and the signals delivered on
`sigCh` during the interval wait (lines 432-443). -/
structure Attempt where
  startFails : Bool
  pid : Int
  exitsWithinInterval : Bool
  sigs : List (Option SysSignal)
  deriving Repr, DecidableEq

/-- Lines 446-458: `gotSig` is set when any buffered signal is a
`syscall.Signal` other than `SIGHUP`. -/
def gotSigOf (sigs : List (Option SysSignal)) : Bool :=
  sigs.any (fun s =>
    match s with
    | some ss => ss ≠ SysSignal.SIGHUP
    | none => false)

/-- `os.FindProcess(pid)` succeeding (line 461). Per the Go documentation,
on Unix systems `FindProcess` always succeeds and returns a `Process` for
the given pid, regardless of whether the process exists; the result does
not depend on the `alive` argument, which carries the scenario fact of
whether the process is still running. -/
def findProcessOk (pid : Int) (alive : Bool) : Bool := true

/-- One iteration of `StartWorker`'s retry loop at generation counter
`gen`. Returns `none` on a panic in the descriptor loop; otherwise
`some (gen', envAtStart, accepted)` where `gen' = gen + 1` is the counter
after line 420, `envAtStart` is the environment published at lines 421-422
immediately before `cmd.Start()`, and `accepted` is `some pid` exactly when
the iteration returns a process handle (line 474). -/
def swAttempt (s : Starter) (gen : Int) (a : Attempt) :
    Option (Int × EnvState × Option Int) :=
  match buildPortPairs s.ports s.listeners with
  | none => none
  | some pairs =>
    let gen' := gen + 1
    let env : EnvState :=
      { port := String.intercalate ";" pairs, generation := toString gen' }
    if a.startFails then
      some (gen', env, none)
    else
      let gotSig := gotSigOf a.sigs
      if gotSig || findProcessOk a.pid (!a.exitsWithinInterval) then
        some (gen', env, some a.pid)
      else
        some (gen', env, none)

/-- Result of `StartWorker`: the returned handle's pid, the generation
counter and environment afterwards, and the per-iteration trace of
`(generation, envAtStart)` pairs, one per attempt in order. -/
structure SWOutcome where
  pid : Int
  generation : Int
  env : EnvState
  trace : List (Int × EnvState)
  deriving Repr, DecidableEq

/-- The retry loop of `StartWorker`, fueled by the list of scenario
attempts (`none` when the fuel runs out before an attempt is accepted, or
when an iteration panics; the real loop runs forever until acceptance). -/
def startWorker (s : Starter) (gen : Int) : List Attempt → Option SWOutcome
  | [] => none
  | a :: rest =>
    match swAttempt s gen a with
    | none => none
    | some (gen', env, acc) =>
      match acc with
      | some pid =>
        some { pid := pid, generation := gen', env := env, trace := [(gen', env)] }
      | none =>
        (startWorker s gen' rest).map
          (fun o => { o with trace := (gen', env) :: o.trace })

/-- The startup sequence of `Run` up to and including the first spawn:
first the pid file and the listener-opening loop (lines 201-226), then
`s.generation = 0` and its publication (lines 228-229), then the first
`StartWorker` (line 243). The listener list is fixed before the spawn and
is never written again. -/
def runStartup (cfg : Config) (fuel : List Attempt) :
    Option (Starter × EnvState × SWOutcome) :=
  match NewStarter (some cfg) with
  | .error _ => none
  | .ok s0 =>
    let s1 := { s0 with listeners := runOpenListeners s0.ports s0.paths }
    let s2 := { s1 with generation := 0 }
    let env : EnvState := { generation := "0", port := "" }
    (startWorker s2 0 fuel).map (fun o => (s2, env, o))

/-! ## The supervisor loop of `Run` (lines 285-362) and its deferred
shutdown handler (lines 248-282) -/

/-- Go map write `m[pid] = gen`. -/
def mapSet (m : List (Int × Int)) (pid gen : Int) : List (Int × Int) :=
  (pid, gen) :: m.filter (fun w => w.1 ≠ pid)

/-- Go map `delete(m, pid)`. -/
def mapDelete (m : List (Int × Int)) (pid : Int) : List (Int × Int) :=
  m.filter (fun w => w.1 ≠ pid)

/-- The loop-carried state of `Run`: the current worker's pid (`p`), its
generation (the worker attribute of spec §3; in the code it is the value
`s.generation` held since that worker's spawn), the live `s.generation`
counter, the `oldWorkers` map, and `sigToSend`. -/
structure LoopState where
  currentPid : Int
  currentGen : Int
  generation : Int
  oldWorkers : List (Int × Int)
  sigToSend : Option SysSignal
  deriving Repr, DecidableEq

/-- An event consumed by the inner `select` (lines 295-323): a worker-exit
report on `workerCh` or a signal on `sigCh`. -/
inductive LoopEvent where
  | workerExit (pid : Int) (status : Int)
  | signal (sig : SysSignal)
  deriving Repr, DecidableEq

/-- The outcome of one iteration of the inner loop: either continue with a
new state, having sent the listed `(pid, signal)` pairs and slept for
`sleptNs` nanoseconds, or leave the loop via `return` with the given error
(the deferred handler then runs). -/
inductive StepOut where
  | cont (st : LoopState) (sent : List (Int × Option SysSignal)) (sleptNs : Int)
  | exitLoop (st : LoopState) (ret : Option String)
  deriving Repr, DecidableEq

/-- One iteration of the inner loop of `Run` (lines 289-361). `kodEnv` and
`earEnv` are the values of `KILL_OLD_DELAY` and `ENABLE_AUTO_RESTART`;
`fuel` feeds any `StartWorker` call made by the iteration. Returns `none`
only when such a call runs out of fuel or panics.

Branches, as in the source:
- exit of the current worker (lines 298-302): respawn immediately; the dead
  pid is never added to `oldWorkers`;
- exit of any other pid (lines 303-307): delete it from `oldWorkers`;
- `SIGHUP` (lines 311-315): set `restart = 1` and `sigToSend`; the restart
  block (lines 325-360) then runs only when `restart > 1 || restart > 0 &&
  len(oldWorkers) == 0`, i.e. only when `oldWorkers` is empty: demote the
  current worker under `s.generation`, spawn, and — the set now being
  non-empty — sleep the kill delay and send `s.signalOnHUP` to every old
  worker;
- `SIGTERM` (lines 316-318): set `sigToSend` to the configured TERM signal
  and return nil;
- any other signal, i.e. `SIGINT`/`SIGQUIT` (lines 319-321): set
  `sigToSend` to a raw `SIGTERM` and return nil. -/
def runStep (s : Starter) (kodEnv earEnv : String) (st : LoopState)
    (ev : LoopEvent) (fuel : List Attempt) : Option StepOut :=
  match ev with
  | .workerExit pid _ =>
    if pid = st.currentPid then
      (startWorker s st.generation fuel).map (fun o =>
        .cont { st with currentPid := o.pid, currentGen := o.generation,
                        generation := o.generation } [] 0)
    else
      some (.cont { st with oldWorkers := mapDelete st.oldWorkers pid } [] 0)
  | .signal sig =>
    match sig with
    | .SIGHUP =>
      let st1 := { st with sigToSend := s.signalOnHUP }
      if st1.oldWorkers.isEmpty then
        let old2 := mapSet st1.oldWorkers st1.currentPid st1.generation
        (startWorker s st1.generation fuel).map (fun o =>
          let delay := getKillOldDelay kodEnv earEnv
          .cont { st1 with currentPid := o.pid, currentGen := o.generation,
                           generation := o.generation, oldWorkers := old2 }
            (old2.map (fun w => (w.1, s.signalOnHUP)))
            (if 0 < delay then delay else 0))
      else
        some (.cont st1 [] 0)
    | .SIGTERM =>
      some (.exitLoop { st with sigToSend := s.signalOnTERM } none)
    | _ =>
      some (.exitLoop { st with sigToSend := some .SIGTERM } none)

/-- The drain loop of the deferred handler (lines 276-280): while
`oldWorkers` is non-empty, block on `workerCh` and delete the reported pid.
`events` is the stream of `(pid, status)` reports; `none` models the loop
blocking forever because the stream is exhausted. On termination the
returned remainder is what is left of the map (by the loop condition,
empty). -/
def drainLoop : List (Int × Int) → List (Int × Int) → Option (List (Int × Int))
  | old, [] => if old.isEmpty then some old else none
  | old, e :: rest =>
    if old.isEmpty then some old
    else drainLoop (mapDelete old e.1) rest

/-- The deferred shutdown handler of `Run` (lines 248-282): if the current
worker handle is non-nil, add its pid under `s.generation`; send
`sigToSend` to every pid of the resulting map; then drain until the map is
empty. Returns the sent `(pid, signal)` list and the final map. -/
def runDeferred (p : Option Int) (generation : Int) (old0 : List (Int × Int))
    (sigToSend : Option SysSignal) (events : List (Int × Int)) :
    Option (List (Int × Option SysSignal) × List (Int × Int)) :=
  let old1 :=
    match p with
    | some pid => mapSet old0 pid generation
    | none => old0
  let sent := old1.map (fun w => (w.1, sigToSend))
  (drainLoop old1 events).map (fun rem => (sent, rem))

/-- The signal chosen at lines 316-321 when the loop exits on a terminal
signal: the configured TERM signal for `SIGTERM`, a raw `SIGTERM` for
everything else (`SIGINT`/`SIGQUIT`). -/
def shutdownSigToSend (s : Starter) (sig : SysSignal) : Option SysSignal :=
  if sig = .SIGTERM then s.signalOnTERM else some .SIGTERM

/-- Modelled from the spec (§6): the `SERVER_STARTER_PORT` pair list as the
specification describes it — one `spec=fd` pair per configured port AND
path specifier, in declaration order, with `fd = 3 + i`. For comparison
with `buildPortPairs`, which is what the source computes. -/
def specPortPairs (ports paths : List String) : List String :=
  (ports ++ paths).mapIdx (fun i spec => spec ++ "=" ++ toString (i + 3))

/-! ## General lemmas -/

theorem wrap64_eq_self (n : Int) (h1 : -(2 ^ 63) ≤ n) (h2 : n < 2 ^ 63) :
    wrap64 n = n := by
  unfold wrap64
  have h0 : (0 : Int) ≤ n + 2 ^ 63 := by linarith
  have hlt : n + 2 ^ 63 < 2 ^ 64 := by norm_num at h2 ⊢; linarith
  rw [Int.emod_eq_of_lt h0 hlt]
  ring

theorem NewStarter_ok_fields (c : Config) (s : Starter)
    (h : NewStarter (some c) = .ok s) :
    s.ports = c.ports ∧ s.paths = c.paths := by
  unfold NewStarter at h
  dsimp only at h
  by_cases hc : c.command = ""
  · rw [if_pos hc] at h
    cases h
  · rw [if_neg hc] at h
    cases h
    exact ⟨rfl, rfl⟩

/-! ## Claim C7 — the signal-name tables -/

/-- C7: the claim states the name table is bidirectional, with
`SigFromName "TERM"` yielding `SIGTERM` rather than nil. The code evaluated
at that input returns nil: `init` builds the inverse map into a local
variable declared with `:=` (line 54) that shadows the package-level
`niceNameToSigs`, which stays nil, so every `SigFromName` lookup fails.
The forward direction (`signame`) works, and the discarded local map did
contain the claimed entry, confirming the shadowing is a slip. -/
theorem claim_C7_sigFromName_returns_nil :
    SigFromName "TERM" = none ∧
    initLocalNiceNameToSigs.lookup "TERM" = some SysSignal.SIGTERM ∧
    signame (some SysSignal.SIGTERM) = "TERM" ∧
    signame (some SysSignal.SIGHUP) = "HUP" := by
  refine ⟨rfl, by decide, by decide, by decide⟩

/-! ## Claim C8 — `getKillOldDelay` -/

/-- C8 counterexample: with `KILL_OLD_DELAY=-3` (a parsable but
non-positive integer) and auto-restart unset, the claim says the result is
0; `getKillOldDelay` returns −3 seconds, because the code uses the parsed
value without a positivity check. -/
theorem claim_C8_counterexample :
    getKillOldDelay "-3" "" = -3 * goSecond ∧ (-3 : Int) * goSecond ≠ 0 := by
  refine ⟨by decide, by decide⟩

/-- C8 (amended): `getKillOldDelay` returns the Go-parsed value of
`KILL_OLD_DELAY` seconds whenever that value is non-zero — including
negative values, which pass through unchanged — and returns 0 when the
parsed value is 0 (unset, unparsable, or an explicit `"0"`), except that
when `ENABLE_AUTO_RESTART` parses as true and the parsed value is 0 the
result is 5 seconds. (The bounds keep the int64 duration multiplication
from wrapping.) -/
theorem claim_C8_getKillOldDelay (k e : String) :
    (0 < (goParseInt64 k).1 → (goParseInt64 k).1 ≤ 9223372036 →
      getKillOldDelay k e = (goParseInt64 k).1 * goSecond) ∧
    ((goParseInt64 k).1 = 0 → (goParseBool e).1 = true →
      getKillOldDelay k e = 5 * goSecond) ∧
    ((goParseInt64 k).1 = 0 → (goParseBool e).1 = false →
      getKillOldDelay k e = 0) ∧
    ((goParseInt64 k).1 < 0 → -9223372036 ≤ (goParseInt64 k).1 →
      getKillOldDelay k e = (goParseInt64 k).1 * goSecond) := by
  have hgk : getKillOldDelay k e =
      wrap64 ((if (goParseBool e).1 && (goParseInt64 k).1 == 0 then 5
               else (goParseInt64 k).1) * goSecond) := rfl
  refine ⟨?_, ?_, ?_, ?_⟩
  · intro h1 h2
    rw [hgk]
    have hne : ((goParseInt64 k).1 == 0) = false := by
      simp only [beq_eq_false_iff_ne, ne_eq]
      omega
    rw [hne, Bool.and_false, if_neg (by simp)]
    apply wrap64_eq_self <;> unfold goSecond <;> nlinarith
  · intro h1 h2
    rw [hgk, h1, h2]
    norm_num
    apply wrap64_eq_self <;> norm_num [goSecond]
  · intro h1 h2
    rw [hgk, h1, h2]
    norm_num
    apply wrap64_eq_self <;> norm_num [goSecond]
  · intro h1 h2
    rw [hgk]
    have hne : ((goParseInt64 k).1 == 0) = false := by
      simp only [beq_eq_false_iff_ne, ne_eq]
      omega
    rw [hne, Bool.and_false, if_neg (by simp)]
    apply wrap64_eq_self <;> unfold goSecond <;> nlinarith

/-- Witness for C8 at concrete inputs: `KILL_OLD_DELAY=7` gives 7 seconds;
unset with `ENABLE_AUTO_RESTART=true` gives 5 seconds. -/
theorem claim_C8_witness :
    getKillOldDelay "7" "" = 7 * goSecond ∧
    getKillOldDelay "" "true" = 5 * goSecond := by
  constructor
  · have h := (claim_C8_getKillOldDelay "7" "").1 (by decide) (by decide)
    simpa using h
  · have h := (claim_C8_getKillOldDelay "" "true").2.1 (by decide) (by decide)
    simpa using h

/-! ## Claim C9 — `Teardown` -/

/-- C9 counterexample: a starter with a configured status file
`"status.txt"` and pid file `"app.pid"`. The claim says `Teardown` removes
the status file when one is configured; `Teardown` (lines 492-505) removes
only the pid file — the status file is handled by the separate `Close`
method, which `Run` never defers. -/
theorem claim_C9_counterexample :
    teardownRemovedFiles
      { interval := 0, signalOnHUP := none, signalOnTERM := none,
        statusFile := "status.txt", pidFile := "app.pid", dir := "",
        ports := [], paths := [], listeners := [none], generation := 0,
        command := "cmd", args := [] } = ["app.pid"] ∧
    "status.txt" ∉ teardownRemovedFiles
      { interval := 0, signalOnHUP := none, signalOnTERM := none,
        statusFile := "status.txt", pidFile := "app.pid", dir := "",
        ports := [], paths := [], listeners := [none], generation := 0,
        command := "cmd", args := [] } := by
  refine ⟨rfl, by decide⟩

/-- C9 (amended): `Teardown`, which runs (deferred) on every return path of
`Run`, removes the pid file when one is configured, closes exactly the
non-null listeners, tolerates a null listener entry, and returns nil; the
status file is not removed by `Teardown` — only the separate `Close`
method removes it (together with the pid file). -/
theorem claim_C9_teardown (s : Starter) :
    (s.pidFile ≠ "" → teardownRemovedFiles s = [s.pidFile]) ∧
    (s.pidFile = "" → teardownRemovedFiles s = []) ∧
    (∀ a : ListenAddr, a ∈ teardownClosedListeners s ↔ some a ∈ s.listeners) ∧
    teardownResult s = none ∧
    (s.statusFile ≠ "" → s.statusFile ∈ closeRemovedFiles s) ∧
    (s.pidFile ≠ "" → s.pidFile ∈ closeRemovedFiles s) := by
  refine ⟨?_, ?_, ?_, rfl, ?_, ?_⟩
  · intro h; simp [teardownRemovedFiles, h]
  · intro h; simp [teardownRemovedFiles, h]
  · intro a
    simp [teardownClosedListeners, List.mem_filterMap]
  · intro h
    simp [closeRemovedFiles, h]
  · intro h
    simp [closeRemovedFiles, h]

/-- Witness for C9 at a concrete starter: pid file configured, one null and
one open listener slot, status file configured. -/
theorem claim_C9_witness :
    teardownRemovedFiles
      { interval := 0, signalOnHUP := none, signalOnTERM := none,
        statusFile := "s.txt", pidFile := "p.pid", dir := "",
        ports := ["80"], paths := ["u"],
        listeners := [some (.wildcard 80), none], generation := 0,
        command := "cmd", args := [] } = ["p.pid"] ∧
    "s.txt" ∈ closeRemovedFiles
      { interval := 0, signalOnHUP := none, signalOnTERM := none,
        statusFile := "s.txt", pidFile := "p.pid", dir := "",
        ports := ["80"], paths := ["u"],
        listeners := [some (.wildcard 80), none], generation := 0,
        command := "cmd", args := [] } := by
  constructor
  · exact (claim_C9_teardown _).1 (by decide)
  · exact (claim_C9_teardown _).2.2.2.2.1 (by decide)

/-! ## Claim C10 — `NewStarter` -/

/-- C10: `NewStarter` fails exactly on a nil config or an empty `Command`;
any other config yields a starter (empty port and path lists included),
with nil `SignalOnHUP`/`SignalOnTERM` replaced by `SIGTERM` and the other
fields copied (the listener array is preallocated with one nil slot per
port and path specifier). -/
theorem claim_C10_newStarter (c : Config) :
    NewStarter none = .error "config argument must be non-nil" ∧
    (c.command = "" →
      NewStarter (some c) = .error "argument Command must be specified") ∧
    (c.command ≠ "" → (NewStarter (some c)).isOk = true) ∧
    (∀ s, NewStarter (some c) = .ok s →
      s.signalOnHUP = some (c.signalOnHUP.getD .SIGTERM) ∧
      s.signalOnTERM = some (c.signalOnTERM.getD .SIGTERM) ∧
      s.command = c.command ∧ s.args = c.args ∧ s.dir = c.dir ∧
      s.interval = c.interval ∧ s.pidFile = c.pidFile ∧
      s.statusFile = c.statusFile ∧ s.ports = c.ports ∧ s.paths = c.paths ∧
      s.listeners = List.replicate (c.ports.length + c.paths.length) none) := by
  refine ⟨rfl, ?_, ?_, ?_⟩
  · intro h
    simp [NewStarter, h]
  · intro h
    simp [NewStarter, h, Except.isOk, Except.toBool]
  · intro s hs
    unfold NewStarter at hs
    by_cases h : c.command = ""
    · simp [h] at hs
    · dsimp only at hs
      rw [if_neg h] at hs
      cases hs
      refine ⟨?_, ?_, rfl, rfl, rfl, rfl, rfl, rfl, rfl, rfl, rfl⟩
      · cases c.signalOnHUP <;> rfl
      · cases c.signalOnTERM <;> rfl

/-- Witness for C10: a config with empty port and path lists and nil
signals is accepted, and the result uses the `SIGTERM` defaults. -/
theorem claim_C10_witness :
    (NewStarter (some
      { args := [], command := "run", dir := "", interval := 0,
        pidFile := "", ports := [], paths := [], signalOnHUP := none,
        signalOnTERM := none, statusFile := "" })).isOk = true ∧
    (∀ s, NewStarter (some
      { args := [], command := "run", dir := "", interval := 0,
        pidFile := "", ports := [], paths := [], signalOnHUP := none,
        signalOnTERM := none, statusFile := "" }) = .ok s →
      s.signalOnHUP = some .SIGTERM ∧ s.signalOnTERM = some .SIGTERM) := by
  constructor
  · exact (claim_C10_newStarter _).2.2.1 (by decide)
  · intro s hs
    have h := (claim_C10_newStarter _).2.2.2 s hs
    exact ⟨h.1, h.2.1⟩

/-! ## Claim C3 — the listener-opening loop -/

/-- C3 counterexample: with no port specifiers and one path specifier, the
opening loop of `Run` (lines 211-226, `for i, addr := range s.ports`)
opens no listener at all — the path's preallocated slot stays nil — though
the claim requires one listener per specifier including paths. -/
theorem claim_C3_counterexample :
    runOpenListeners [] ["/tmp/app.sock"] = [none] ∧
    (runOpenListeners [] ["/tmp/app.sock"]).filterMap id = [] := by
  refine ⟨rfl, rfl⟩

/-- C3 (amended): at startup `Run` opens exactly one listener per
configured **port** specifier, in declaration order, before the first
worker is spawned; a bare (in-range base-10) numeric specifier binds the
wildcard address on that port and any other string is passed to
`net.Listen` as an address; **path** specifiers get no listener — their
preallocated slots remain nil. -/
theorem claim_C3_listeners (ports paths : List String) :
    (runOpenListeners ports paths).filterMap id = ports.map listenTarget ∧
    (runOpenListeners ports paths).length = ports.length + paths.length ∧
    List.take ports.length (runOpenListeners ports paths) =
      ports.map (fun a => some (listenTarget a)) ∧
    List.drop ports.length (runOpenListeners ports paths) =
      List.replicate paths.length none ∧
    (∀ addr n, goParseInt64 addr = (n, true) →
      listenTarget addr = .wildcard n) ∧
    (∀ addr, (goParseInt64 addr).2 = false → listenTarget addr = .given addr) ∧
    (∀ cfg fuel s env o, runStartup cfg fuel = some (s, env, o) →
      s.listeners = runOpenListeners cfg.ports cfg.paths) := by
  have hmap : (ports.map (fun a => some (listenTarget a))).filterMap id =
      ports.map listenTarget := by
    induction ports with
    | nil => rfl
    | cons p ps ih => simp [List.filterMap_cons, ih]
  have hrep : (List.replicate paths.length (none : Option ListenAddr)).filterMap id = [] := by
    induction paths.length with
    | zero => rfl
    | succ n ih => simp [List.replicate, List.filterMap_cons, ih]
  refine ⟨?_, ?_, ?_, ?_, ?_, ?_, ?_⟩
  · rw [runOpenListeners, List.filterMap_append, hmap, hrep, List.append_nil]
  · simp [runOpenListeners]
  · rw [runOpenListeners, ← List.length_map ports (fun a => some (listenTarget a)),
      List.take_left]
  · rw [runOpenListeners, ← List.length_map ports (fun a => some (listenTarget a)),
      List.drop_left]
  · intro addr n h
    simp [listenTarget, h]
  · intro addr h
    simp [listenTarget, h]
  · intro cfg fuel s env o h
    unfold runStartup at h
    cases hns : NewStarter (some cfg) with
    | error e => rw [hns] at h; exact absurd h (by simp)
    | ok s0 =>
      obtain ⟨hp1, hp2⟩ := NewStarter_ok_fields cfg s0 hns
      rw [hns] at h
      dsimp only at h
      rw [Option.map_eq_some'] at h
      obtain ⟨o', hsw, hf⟩ := h
      rw [Prod.ext_iff] at hf
      have hs : s = { s0 with listeners := runOpenListeners s0.ports s0.paths,
                              generation := 0 } := hf.1.symm
      rw [hs, ← hp1, ← hp2]

/-- Witness for C3 at concrete inputs: a bare port binds the wildcard
address, an `address:port` string binds that address, and a concrete
startup run fixes the listener list before the first spawn. -/
theorem claim_C3_witness :
    listenTarget "8080" = .wildcard 8080 ∧
    listenTarget "127.0.0.1:9090" = .given "127.0.0.1:9090" ∧
    Starter.listeners
      { interval := 0, signalOnHUP := some .SIGTERM,
        signalOnTERM := some .SIGTERM, statusFile := "", pidFile := "",
        dir := "", ports := ["8080"], paths := [],
        listeners := [some (.wildcard 8080)], generation := 0,
        command := "run", args := [] } = runOpenListeners ["8080"] [] := by
  refine ⟨(claim_C3_listeners [] []).2.2.2.2.1 "8080" 8080 (by decide),
          (claim_C3_listeners [] []).2.2.2.2.2.1 "127.0.0.1:9090" (by decide),
          (claim_C3_listeners [] []).2.2.2.2.2.2
            { args := [], command := "run", dir := "", interval := 0,
              pidFile := "", ports := ["8080"], paths := [],
              signalOnHUP := some .SIGTERM, signalOnTERM := some .SIGTERM,
              statusFile := "" }
            [{ startFails := false, pid := 7, exitsWithinInterval := false,
               sigs := [] }]
            _ { generation := "0", port := "" }
            { pid := 7, generation := 1,
              env := { generation := "1", port := "8080=3" },
              trace := [(1, { generation := "1", port := "8080=3" })] }
            (by decide)⟩

/-! ## Claim C6 — `SERVER_STARTER_PORT` -/

theorem buildPortPairsAux_ports (specs : List String) :
    ∀ (rest : List String) (i : Nat), specs.drop i = rest →
      buildPortPairsAux specs i (rest.map (fun a => some (listenTarget a))) =
        some (rest.mapIdx (fun j sp => sp ++ "=" ++ toString (i + j + 3))) := by
  intro rest
  induction rest with
  | nil => intro i _; rfl
  | cons sp rest' ih =>
    intro i h
    have hget : specs.get? i = some sp := by
      have h0 : (specs.drop i).get? 0 = some sp := by rw [h]; rfl
      rw [List.get?_drop] at h0
      simpa using h0
    have hdrop : specs.drop (i + 1) = rest' := by
      rw [← List.drop_drop, h]
      rfl
    have harg : (fun (j : Nat) (sp' : String) =>
        sp' ++ "=" ++ toString (i + 1 + j + 3)) =
        (fun (j : Nat) (sp' : String) =>
          sp' ++ "=" ++ toString (i + (j + 1) + 3)) := by
      funext j sp'
      have he : i + 1 + j + 3 = i + (j + 1) + 3 := by omega
      rw [he]
    simp only [List.map_cons, buildPortPairsAux, hget, ih (i + 1) hdrop,
      Option.map_some', List.mapIdx_cons, harg, Nat.add_zero]

/-- C6 counterexample: with one port and one path specifier, the claim's
pair list would be `["8080=3", "/tmp/app.sock=4"]`; the descriptor loop of
`StartWorker` instead panics (the path's listener slot is a Go nil, and the
`ports` slice has no slot for it), so no pair list is produced at all. -/
theorem claim_C6_counterexample :
    buildPortPairs ["8080"] (runOpenListeners ["8080"] ["/tmp/app.sock"]) = none ∧
    specPortPairs ["8080"] ["/tmp/app.sock"] = ["8080=3", "/tmp/app.sock=4"] := by
  refine ⟨rfl, by decide⟩

/-- C6 (amended): before each spawn attempt, `SERVER_STARTER_PORT` is set
to the `;`-joined list of `spec=fd` pairs covering the configured **port**
specifiers only, in declaration order, with `fd = 3 + i`; path specifiers
produce no pairs (with any path configured, the descriptor loop panics
before the variable is set). -/
theorem claim_C6_portPairs (s : Starter) (gen : Int) (a : Attempt)
    (hl : s.listeners = runOpenListeners s.ports []) :
    buildPortPairs s.ports s.listeners = some (specPortPairs s.ports []) ∧
    (∀ r, swAttempt s gen a = some r →
      r.2.1.port = String.intercalate ";" (specPortPairs s.ports [])) := by
  have hbp : buildPortPairs s.ports s.listeners = some (specPortPairs s.ports []) := by
    rw [hl]
    unfold buildPortPairs runOpenListeners specPortPairs
    simp only [List.length_nil, List.replicate, List.append_nil]
    have haux := buildPortPairsAux_ports s.ports s.ports 0 (by simp)
    rw [haux]
    have harg : (fun (j : Nat) (sp' : String) =>
        sp' ++ "=" ++ toString (0 + j + 3)) =
        (fun (j : Nat) (sp' : String) => sp' ++ "=" ++ toString (j + 3)) := by
      funext j sp'
      have he : 0 + j + 3 = j + 3 := by omega
      rw [he]
    rw [harg]
  refine ⟨hbp, ?_⟩
  intro r hr
  unfold swAttempt at hr
  rw [hbp] at hr
  dsimp only at hr
  split at hr
  · injection hr with h
    subst h
    rfl
  · split at hr
    · injection hr with h
      subst h
      rfl
    · injection hr with h
      subst h
      rfl

/-- Witness for C6 at a concrete two-port, no-path configuration. -/
theorem claim_C6_witness :
    buildPortPairs ["8080", "9090"]
      [some (.wildcard 8080), some (.wildcard 9090)] =
      some ["8080=3", "9090=4"] := by
  have h := (claim_C6_portPairs
    { interval := 0, signalOnHUP := some .SIGTERM,
      signalOnTERM := some .SIGTERM, statusFile := "", pidFile := "",
      dir := "", ports := ["8080", "9090"], paths := [],
      listeners := [some (.wildcard 8080), some (.wildcard 9090)],
      generation := 0, command := "run", args := [] } 0
    { startFails := false, pid := 1, exitsWithinInterval := false,
      sigs := [] } (by decide)).1
  rw [h]
  decide

/-! ## Claim C2 — `StartWorker` and a worker that dies in the grace
window -/

/-- C2: the claim says `StartWorker` never returns a handle to a process
that exited within the liveness interval with no non-HUP signal received —
it should release the attempt's descriptors and retry. Evaluating the code
at exactly that scenario (the process with pid 42 starts, dies within the
interval, no signal arrives): the acceptance test at line 462 is
`gotSig || err == nil` where `err` comes from `os.FindProcess`, which on
Unix always succeeds regardless of whether the process exists, so the
handle of the dead pid 42 IS returned on the first attempt and the retry
path (lines 478-485) is never reached. -/
theorem claim_C2_deadWorkerReturned :
    startWorker
      { interval := goSecond, signalOnHUP := some .SIGTERM,
        signalOnTERM := some .SIGTERM, statusFile := "", pidFile := "",
        dir := "", ports := ["8080"], paths := [],
        listeners := [some (.wildcard 8080)], generation := 0,
        command := "sleep", args := ["100"] } 0
      [{ startFails := false, pid := 42, exitsWithinInterval := true,
         sigs := [] }] =
      some { pid := 42, generation := 1,
             env := { generation := "1", port := "8080=3" },
             trace := [(1, { generation := "1", port := "8080=3" })] } ∧
    Attempt.exitsWithinInterval
      { startFails := false, pid := 42, exitsWithinInterval := true,
        sigs := [] } = true ∧
    gotSigOf [] = false := by
  refine ⟨by decide, rfl, rfl⟩

/-! ## Claim C5 — the generation counter -/

theorem swAttempt_char (s : Starter) (gen : Int) (a : Attempt)
    (r : Int × EnvState × Option Int) (h : swAttempt s gen a = some r) :
    r.1 = gen + 1 ∧ r.2.1.generation = toString (gen + 1) := by
  unfold swAttempt at h
  cases hb : buildPortPairs s.ports s.listeners with
  | none => rw [hb] at h; cases h
  | some pairs =>
    rw [hb] at h
    dsimp only at h
    split at h
    · injection h with h'
      subst h'
      exact ⟨rfl, rfl⟩
    · split at h
      · injection h with h'
        subst h'
        exact ⟨rfl, rfl⟩
      · injection h with h'
        subst h'
        exact ⟨rfl, rfl⟩

theorem startWorker_props (s : Starter) :
    ∀ (fuel : List Attempt) (gen : Int) (o : SWOutcome),
      startWorker s gen fuel = some o →
      (∀ (i : Nat) (g : Int) (e : EnvState), o.trace.get? i = some (g, e) →
        g = gen + (i : Int) + 1 ∧ e.generation = toString g) ∧
      o.generation = gen + (o.trace.length : Int) ∧
      o.trace.getLast? = some (o.generation, o.env) ∧
      o.env.generation = toString o.generation := by
  intro fuel
  induction fuel with
  | nil => intro gen o h; cases h
  | cons a rest ih =>
    intro gen o h
    unfold startWorker at h
    cases hswa : swAttempt s gen a with
    | none => rw [hswa] at h; cases h
    | some r =>
      obtain ⟨hr1, hr2⟩ := swAttempt_char s gen a r hswa
      rw [hswa] at h
      obtain ⟨gen', env, acc⟩ := r
      dsimp only at h hr1 hr2
      subst hr1
      cases acc with
      | some pid =>
        dsimp only at h
        injection h with h'
        subst h'
        refine ⟨?_, by simp, rfl, hr2⟩
        intro i g e hget
        cases i with
        | zero =>
          simp only [List.get?] at hget
          injection hget with h''
          injection h'' with hg he
          subst hg
          subst he
          exact ⟨by simp, hr2⟩
        | succ n => simp at hget
      | none =>
        dsimp only at h
        rw [Option.map_eq_some'] at h
        obtain ⟨o', hsw', hf⟩ := h
        obtain ⟨hT, hG, hL, hE⟩ := ih (gen + 1) o' hsw'
        subst hf
        refine ⟨?_, ?_, ?_, hE⟩
        · intro i g e hget
          cases i with
          | zero =>
            simp only [List.get?] at hget
            injection hget with h''
            injection h'' with hg he
            subst hg
            subst he
            exact ⟨by simp, hr2⟩
          | succ n =>
            simp only [List.get?] at hget
            obtain ⟨hg, he⟩ := hT n g e hget
            refine ⟨by push_cast at hg ⊢; omega, he⟩
        · simp only [List.length_cons]
          push_cast at hG ⊢
          omega
        · cases htr : o'.trace with
          | nil => rw [htr] at hL; cases hL
          | cons x xs =>
            rw [htr] at hL
            simp only [htr, List.getLast?_cons_cons]
            exact hL

/-- C5: the generation counter is set to 0 by `Run` before any spawn
(lines 228-229); each `StartWorker` iteration increments it by exactly 1
(line 420), successful or failed, so the i-th attempt of a spawn starting
from counter value `gen` runs at generation `gen + i + 1`; and
`SERVER_STARTER_GENERATION` is set (line 422, before `cmd.Start()` at line
425) to that attempt's generation, so the value visible to a spawned
process equals its generation. -/
theorem claim_C5_generation :
    (∀ cfg fuel s env o, runStartup cfg fuel = some (s, env, o) →
      s.generation = 0 ∧ env.generation = "0") ∧
    (∀ (s : Starter) (gen : Int) (fuel : List Attempt) (o : SWOutcome),
      startWorker s gen fuel = some o →
      (∀ (i : Nat) (g : Int) (e : EnvState), o.trace.get? i = some (g, e) →
        g = gen + (i : Int) + 1 ∧ e.generation = toString g) ∧
      o.generation = gen + (o.trace.length : Int) ∧
      o.trace.getLast? = some (o.generation, o.env) ∧
      o.env.generation = toString o.generation) := by
  constructor
  · intro cfg fuel s env o h
    unfold runStartup at h
    cases hns : NewStarter (some cfg) with
    | error e' => rw [hns] at h; simp at h
    | ok s0 =>
      rw [hns] at h
      dsimp only at h
      rw [Option.map_eq_some'] at h
      obtain ⟨o', hsw, hf⟩ := h
      obtain ⟨hs, henv, ho⟩ : _ ∧ _ ∧ _ := by simpa [Prod.ext_iff] using hf
      constructor
      · rw [← hs]
      · rw [← henv]
  · intro s gen fuel o h
    exact startWorker_props s fuel gen o h

/-- Witness for C5: a concrete startup (generation published as 0), then a
spawn whose first attempt fails at `cmd.Start` and whose second attempt is
accepted: the trace runs through generations 1 and 2, the final counter is
2, and the environment seen by the accepted process is `"2"`. -/
theorem claim_C5_witness :
    Starter.generation
      { interval := 0, signalOnHUP := some .SIGTERM,
        signalOnTERM := some .SIGTERM, statusFile := "", pidFile := "",
        dir := "", ports := ["8080"], paths := [],
        listeners := [some (.wildcard 8080)], generation := 0,
        command := "run", args := [] } = 0 ∧
    SWOutcome.generation
      { pid := 9, generation := 2,
        env := { generation := "2", port := "8080=3" },
        trace := [(1, { generation := "1", port := "8080=3" }),
                  (2, { generation := "2", port := "8080=3" })] } =
      0 + ((2 : Nat) : Int) ∧
    EnvState.generation
      (SWOutcome.env
        { pid := 9, generation := 2,
          env := { generation := "2", port := "8080=3" },
          trace := [(1, { generation := "1", port := "8080=3" }),
                    (2, { generation := "2", port := "8080=3" })] }) =
      toString (2 : Int) := by
  refine ⟨?_, ?_, ?_⟩
  · exact (claim_C5_generation.1
      { args := [], command := "run", dir := "", interval := 0,
        pidFile := "", ports := ["8080"], paths := [],
        signalOnHUP := some .SIGTERM, signalOnTERM := some .SIGTERM,
        statusFile := "" }
      [{ startFails := false, pid := 7, exitsWithinInterval := false,
         sigs := [] }]
      _ { generation := "0", port := "" }
      { pid := 7, generation := 1,
        env := { generation := "1", port := "8080=3" },
        trace := [(1, { generation := "1", port := "8080=3" })] }
      (by decide)).1
  · exact (claim_C5_generation.2
      { interval := 0, signalOnHUP := some .SIGTERM,
        signalOnTERM := some .SIGTERM, statusFile := "", pidFile := "",
        dir := "", ports := ["8080"], paths := [],
        listeners := [some (.wildcard 8080)], generation := 0,
        command := "run", args := [] } 0
      [{ startFails := true, pid := 0, exitsWithinInterval := false,
         sigs := [] },
       { startFails := false, pid := 9, exitsWithinInterval := false,
         sigs := [] }]
      { pid := 9, generation := 2,
        env := { generation := "2", port := "8080=3" },
        trace := [(1, { generation := "1", port := "8080=3" }),
                  (2, { generation := "2", port := "8080=3" })] }
      (by decide)).2.1
  · exact (claim_C5_generation.2
      { interval := 0, signalOnHUP := some .SIGTERM,
        signalOnTERM := some .SIGTERM, statusFile := "", pidFile := "",
        dir := "", ports := ["8080"], paths := [],
        listeners := [some (.wildcard 8080)], generation := 0,
        command := "run", args := [] } 0
      [{ startFails := true, pid := 0, exitsWithinInterval := false,
         sigs := [] },
       { startFails := false, pid := 9, exitsWithinInterval := false,
         sigs := [] }]
      { pid := 9, generation := 2,
        env := { generation := "2", port := "8080=3" },
        trace := [(1, { generation := "1", port := "8080=3" }),
                  (2, { generation := "2", port := "8080=3" })] }
      (by decide)).2.2.2

/-! ## Claim C1 — HUP handling in the supervisor loop -/

/-- C1 counterexample: a HUP processed while the old-worker set is
non-empty (pid 100 draining at generation 1; current worker pid 200 at
generation 2; spawn fuel available). The restart guard at line 325
(`restart > 1 || restart > 0 && len(oldWorkers) == 0`) fails because
`restart` is 1 and the set is non-empty, so the iteration only records
`sigToSend`: the current worker is not demoted and no new worker is
spawned — refuting the claim's "regardless of whether the old-worker set
is empty or non-empty". -/
theorem claim_C1_counterexample :
    runStep
      { interval := 0, signalOnHUP := some .SIGUSR1,
        signalOnTERM := some .SIGTERM, statusFile := "", pidFile := "",
        dir := "", ports := [], paths := [], listeners := [],
        generation := 0, command := "run", args := [] } "" ""
      { currentPid := 200, currentGen := 2, generation := 2,
        oldWorkers := [(100, 1)], sigToSend := none }
      (.signal .SIGHUP)
      [{ startFails := false, pid := 999, exitsWithinInterval := false,
         sigs := [] }] =
      some (.cont
        { currentPid := 200, currentGen := 2, generation := 2,
          oldWorkers := [(100, 1)], sigToSend := some .SIGUSR1 } [] 0) ∧
    (LoopState.oldWorkers
      { currentPid := 200, currentGen := 2, generation := 2,
        oldWorkers := [(100, 1)], sigToSend := some .SIGUSR1 }).lookup 200 =
      none ∧
    LoopState.currentPid
      { currentPid := 200, currentGen := 2, generation := 2,
        oldWorkers := [(100, 1)], sigToSend := some .SIGUSR1 } = 200 := by
  refine ⟨by decide, by decide, rfl⟩

/-- C1 (amended): a HUP processed when the old-worker set is **empty**
demotes the current worker into the old-worker set under its existing
generation, spawns a new worker via `StartWorker` which becomes current,
and sends the configured HUP signal to the demoted worker (after the kill
delay); a HUP processed while the old-worker set is **non-empty** only
records the signal to send — no demotion and no spawn occur. -/
theorem claim_C1_hup (s : Starter) (kod ear : String) (st : LoopState)
    (fuel : List Attempt) (hinv : st.currentGen = st.generation) :
    (∀ o : SWOutcome, st.oldWorkers = [] →
      startWorker s st.generation fuel = some o →
      runStep s kod ear st (.signal .SIGHUP) fuel =
        some (.cont
          { currentPid := o.pid, currentGen := o.generation,
            generation := o.generation,
            oldWorkers := [(st.currentPid, st.currentGen)],
            sigToSend := s.signalOnHUP }
          [(st.currentPid, s.signalOnHUP)]
          (if 0 < getKillOldDelay kod ear then getKillOldDelay kod ear
           else 0))) ∧
    (st.oldWorkers ≠ [] →
      runStep s kod ear st (.signal .SIGHUP) fuel =
        some (.cont { st with sigToSend := s.signalOnHUP } [] 0)) := by
  constructor
  · intro o hold hsw
    rw [hinv]
    unfold runStep
    dsimp only
    rw [hold, hsw]
    simp [mapSet]
  · intro hne
    have hemp : st.oldWorkers.isEmpty = false := by
      cases hc : st.oldWorkers with
      | nil => exact absurd hc hne
      | cons x xs => rfl
    unfold runStep
    dsimp only
    rw [hemp]
    simp

/-- Witness for C1 at concrete states: an empty old-worker set (HUP demotes
pid 10 at generation 1 and promotes the spawned pid 11 at generation 2),
and a non-empty one (HUP changes nothing but `sigToSend`). -/
theorem claim_C1_witness :
    runStep
      { interval := 0, signalOnHUP := some .SIGUSR1,
        signalOnTERM := some .SIGTERM, statusFile := "", pidFile := "",
        dir := "", ports := [], paths := [], listeners := [],
        generation := 0, command := "run", args := [] } "" ""
      { currentPid := 10, currentGen := 1, generation := 1,
        oldWorkers := [], sigToSend := none }
      (.signal .SIGHUP)
      [{ startFails := false, pid := 11, exitsWithinInterval := false,
         sigs := [] }] =
      some (.cont
        { currentPid := 11, currentGen := 2, generation := 2,
          oldWorkers := [(10, 1)], sigToSend := some .SIGUSR1 }
        [(10, some .SIGUSR1)] 0) ∧
    runStep
      { interval := 0, signalOnHUP := some .SIGUSR1,
        signalOnTERM := some .SIGTERM, statusFile := "", pidFile := "",
        dir := "", ports := [], paths := [], listeners := [],
        generation := 0, command := "run", args := [] } "" ""
      { currentPid := 10, currentGen := 1, generation := 1,
        oldWorkers := [(5, 1)], sigToSend := none }
      (.signal .SIGHUP) [] =
      some (.cont
        { currentPid := 10, currentGen := 1, generation := 1,
          oldWorkers := [(5, 1)], sigToSend := some .SIGUSR1 } [] 0) := by
  constructor
  · have h := (claim_C1_hup
      { interval := 0, signalOnHUP := some .SIGUSR1,
        signalOnTERM := some .SIGTERM, statusFile := "", pidFile := "",
        dir := "", ports := [], paths := [], listeners := [],
        generation := 0, command := "run", args := [] } "" ""
      { currentPid := 10, currentGen := 1, generation := 1,
        oldWorkers := [], sigToSend := none }
      [{ startFails := false, pid := 11, exitsWithinInterval := false,
         sigs := [] }] rfl).1
      { pid := 11, generation := 2,
        env := { generation := "2", port := "" },
        trace := [(2, { generation := "2", port := "" })] }
      rfl (by decide)
    rw [h]
    decide
  · exact (claim_C1_hup
      { interval := 0, signalOnHUP := some .SIGUSR1,
        signalOnTERM := some .SIGTERM, statusFile := "", pidFile := "",
        dir := "", ports := [], paths := [], listeners := [],
        generation := 0, command := "run", args := [] } "" ""
      { currentPid := 10, currentGen := 1, generation := 1,
        oldWorkers := [(5, 1)], sigToSend := none } [] rfl).2 (by decide)

/-! ## Claim C4 — shutdown on TERM/INT/QUIT -/

theorem drainLoop_sound :
    ∀ (events old rem : List (Int × Int)), drainLoop old events = some rem →
      rem = [] ∧ ∀ w ∈ old, w.1 ∈ events.map Prod.fst := by
  intro events
  induction events with
  | nil =>
    intro old rem h
    unfold drainLoop at h
    split at h
    · rename_i hemp
      injection h with h'
      subst h'
      have hnil : old = [] := by
        cases hc : old with
        | nil => rfl
        | cons x xs => rw [hc] at hemp; exact absurd hemp (by simp)
      subst hnil
      simp
    · cases h
  | cons e rest ih =>
    intro old rem h
    unfold drainLoop at h
    split at h
    · rename_i hemp
      injection h with h'
      subst h'
      have hnil : old = [] := by
        cases hc : old with
        | nil => rfl
        | cons x xs => rw [hc] at hemp; exact absurd hemp (by simp)
      subst hnil
      simp
    · obtain ⟨hrnil, hmem⟩ := ih (mapDelete old e.1) rem h
      refine ⟨hrnil, ?_⟩
      intro w hw
      by_cases hwe : w.1 = e.1
      · simp [hwe]
      · have hwf : w ∈ mapDelete old e.1 :=
          List.mem_filter.mpr ⟨hw, by simp [hwe]⟩
        have h2 := hmem w hwf
        simp only [List.map_cons, List.mem_cons]
        exact Or.inr h2

/-- C4: after `Run` receives TERM, INT, or QUIT, the loop returns nil with
`sigToSend` set to the configured TERM-signal for TERM and a raw `SIGTERM`
for INT/QUIT; the deferred handler then demotes the current worker into the
old-worker set, sends that signal to the current worker's pid and to every
pid already in the set, and drains worker-exit events until the set is
empty — so when it completes, an exit event has been observed for every
signalled pid and the old-worker set is empty. -/
theorem claim_C4_shutdown (s : Starter) (kod ear : String) (st : LoopState)
    (sig : SysSignal) (events : List (Int × Int))
    (sent : List (Int × Option SysSignal)) (rem : List (Int × Int))
    (hsig : sig = .SIGTERM ∨ sig = .SIGINT ∨ sig = .SIGQUIT)
    (hdef : runDeferred (some st.currentPid) st.generation st.oldWorkers
        (shutdownSigToSend s sig) events = some (sent, rem)) :
    runStep s kod ear st (.signal sig) [] =
      some (.exitLoop { st with sigToSend := shutdownSigToSend s sig }
        none) ∧
    (st.currentPid, shutdownSigToSend s sig) ∈ sent ∧
    (∀ w ∈ st.oldWorkers, (w.1, shutdownSigToSend s sig) ∈ sent) ∧
    (∀ ws ∈ sent, ws.1 ∈ events.map Prod.fst) ∧
    rem = [] := by
  have hstep : runStep s kod ear st (.signal sig) [] =
      some (.exitLoop { st with sigToSend := shutdownSigToSend s sig }
        none) := by
    rcases hsig with h | h | h <;> subst h <;> simp [runStep, shutdownSigToSend]
  unfold runDeferred at hdef
  dsimp only at hdef
  rw [Option.map_eq_some'] at hdef
  obtain ⟨rem', hdl, hf⟩ := hdef
  obtain ⟨hsent, hrem⟩ : _ ∧ _ := by simpa [Prod.ext_iff] using hf
  obtain ⟨hrnil, hmem⟩ :=
    drainLoop_sound events (mapSet st.oldWorkers st.currentPid st.generation)
      rem' hdl
  refine ⟨hstep, ?_, ?_, ?_, by rw [← hrem, hrnil]⟩
  · rw [← hsent]
    simp [mapSet]
  · intro w hw
    rw [← hsent]
    by_cases hwe : w.1 = st.currentPid
    · simp [mapSet, hwe]
    · have hwf : w ∈ List.filter
          (fun x => decide (x.1 ≠ st.currentPid)) st.oldWorkers :=
        List.mem_filter.mpr ⟨hw, by simp [hwe]⟩
      simp only [mapSet, List.map_cons, List.mem_cons]
      exact Or.inr (List.mem_map.mpr ⟨w, hwf, rfl⟩)
  · intro ws hws
    rw [← hsent] at hws
    obtain ⟨w, hwin, hweq⟩ := List.mem_map.mp hws
    rw [← hweq]
    exact hmem w hwin

/-- Witness for C4 at a concrete state: current worker pid 7 (generation
3), old worker pid 5, TERM received, exit events for pids 5 then 7. -/
theorem claim_C4_witness :
    runStep
      { interval := 0, signalOnHUP := some .SIGTERM,
        signalOnTERM := some .SIGUSR2, statusFile := "", pidFile := "",
        dir := "", ports := [], paths := [], listeners := [],
        generation := 0, command := "run", args := [] } "" ""
      { currentPid := 7, currentGen := 3, generation := 3,
        oldWorkers := [(5, 1)], sigToSend := none }
      (.signal .SIGTERM) [] =
      some (.exitLoop
        { currentPid := 7, currentGen := 3, generation := 3,
          oldWorkers := [(5, 1)], sigToSend := some .SIGUSR2 } none) ∧
    ((7 : Int), (some SysSignal.SIGUSR2 : Option SysSignal)) ∈
      [((7 : Int), (some SysSignal.SIGUSR2 : Option SysSignal)),
       (5, some .SIGUSR2)] ∧
    (∀ ws ∈ [((7 : Int), (some SysSignal.SIGUSR2 : Option SysSignal)),
             (5, some .SIGUSR2)],
      ws.1 ∈ ([((5 : Int), (0 : Int)), (7, 0)]).map Prod.fst) := by
  have hσ : shutdownSigToSend
      { interval := 0, signalOnHUP := some .SIGTERM,
        signalOnTERM := some .SIGUSR2, statusFile := "", pidFile := "",
        dir := "", ports := [], paths := [], listeners := [],
        generation := 0, command := "run", args := [] } .SIGTERM =
      some .SIGUSR2 := by decide
  have h := claim_C4_shutdown
    { interval := 0, signalOnHUP := some .SIGTERM,
      signalOnTERM := some .SIGUSR2, statusFile := "", pidFile := "",
      dir := "", ports := [], paths := [], listeners := [],
      generation := 0, command := "run", args := [] } "" ""
    { currentPid := 7, currentGen := 3, generation := 3,
      oldWorkers := [(5, 1)], sigToSend := none }
    .SIGTERM [(5, 0), (7, 0)]
    [(7, some .SIGUSR2), (5, some .SIGUSR2)] []
    (Or.inl rfl) (by rw [hσ]; decide)
  rw [hσ] at h
  exact ⟨h.1, h.2.1, h.2.2.2.1⟩

